import Mathlib

namespace SiteMonitor

/-- Characters that Python str.splitlines treats as line boundaries. -/
def isLineBreakChar (c : Char) : Bool :=
  c.toNat = 0x0A || c.toNat = 0x0D || c.toNat = 0x0B || c.toNat = 0x0C ||
  c.toNat = 0x1C || c.toNat = 0x1D || c.toNat = 0x1E || c.toNat = 0x85 ||
  c.toNat = 0x2028 || c.toNat = 0x2029

/-- Worker for pySplitlines: acc holds the current line reversed. -/
def splitlinesAux (keepends : Bool) : List Char → List Char → List (List Char)
  | [], acc => if acc.isEmpty then [] else [acc.reverse]
  | '\r' :: '\n' :: rest, acc =>
      (acc.reverse ++ (if keepends then ['\r', '\n'] else [])) :: splitlinesAux keepends rest []
  | c :: rest, acc =>
      if isLineBreakChar c then
        (acc.reverse ++ (if keepends then [c] else [])) :: splitlinesAux keepends rest []
      else
        splitlinesAux keepends rest (c :: acc)

/-- Python str.splitlines(keepends). -/
def pySplitlines (keepends : Bool) (s : String) : List String :=
  (splitlinesAux keepends s.data []).map (fun l => ⟨l⟩)

/-- Python whitespace characters as stripped by str.strip(). -/
def pyIsSpaceChar (c : Char) : Bool :=
  let n := c.toNat
  (0x9 ≤ n && n ≤ 0xD) || (0x1C ≤ n && n ≤ 0x1F) || n = 0x20 || n = 0x85 ||
  n = 0xA0 || n = 0x1680 || (0x2000 ≤ n && n ≤ 0x200A) || n = 0x2028 ||
  n = 0x2029 || n = 0x202F || n = 0x205F || n = 0x3000

/-- Python str.strip(): remove leading and trailing whitespace. -/
def pyStrip (s : String) : String :=
  ⟨((s.data.dropWhile pyIsSpaceChar).reverse.dropWhile pyIsSpaceChar).reverse⟩

/-- Universal-newlines translation applied by text-mode reads:
CR LF and lone CR both become LF. -/
def univNLChars : List Char → List Char
  | [] => []
  | [c] => [if c = '\r' then '\n' else c]
  | c :: d :: rest =>
    if c = '\r' then
      if d = '\n' then '\n' :: univNLChars rest
      else '\n' :: univNLChars (d :: rest)
    else c :: univNLChars (d :: rest)

def univNewlines (s : String) : String := ⟨univNLChars s.data⟩

/-- True when the text holds no carriage return, so that univNewlines is the identity on it. -/
def crFree (s : String) : Bool := s.data.all (fun c => c ≠ '\r')

/-- str.startswith with a one-character prefix. -/
def startsWithChar (s : String) (c : Char) : Bool :=
  match s.data with
  | [] => false
  | d :: _ => d = c

namespace SHA256

def w32 : Nat := 4294967296

def add32 (x y : Nat) : Nat := (x + y) % w32

def rotr32 (x n : Nat) : Nat := ((x >>> n) ||| (x <<< (32 - n))) % w32

def bnot32 (x : Nat) : Nat := 4294967295 - x

def chf (x y z : Nat) : Nat := (x &&& y) ^^^ (bnot32 x &&& z)

def majf (x y z : Nat) : Nat := (x &&& y) ^^^ (x &&& z) ^^^ (y &&& z)

def bigS0 (x : Nat) : Nat := rotr32 x 2 ^^^ rotr32 x 13 ^^^ rotr32 x 22

def bigS1 (x : Nat) : Nat := rotr32 x 6 ^^^ rotr32 x 11 ^^^ rotr32 x 25

def smallS0 (x : Nat) : Nat := rotr32 x 7 ^^^ rotr32 x 18 ^^^ (x >>> 3)

def smallS1 (x : Nat) : Nat := rotr32 x 17 ^^^ rotr32 x 19 ^^^ (x >>> 10)

def K : List Nat :=
  [1116352408, 1899447441, 3049323471, 3921009573, 961987163,
   1508970993, 2453635748, 2870763221, 3624381080, 310598401,
   607225278, 1426881987, 1925078388, 2162078206, 2614888103,
   3248222580, 3835390401, 4022224774, 264347078, 604807628,
   770255983, 1249150122, 1555081692, 1996064986, 2554220882,
   2821834349, 2952996808, 3210313671, 3336571891, 3584528711,
   113926993, 338241895, 666307205, 773529912, 1294757372,
   1396182291, 1695183700, 1986661051, 2177026350, 2456956037,
   2730485921, 2820302411, 3259730800, 3345764771, 3516065817,
   3600352804, 4094571909, 275423344, 430227734, 506948616,
   659060556, 883997877, 958139571, 1322822218, 1537002063,
   1747873779, 1955562222, 2024104815, 2227730452, 2361852424,
   2428436474, 2756734187, 3204031479, 3329325298]

def beBytes (k n : Nat) : List Nat :=
  (List.range k).map (fun i => (n >>> (8 * (k - 1 - i))) % 256)

def pad (msg : List Nat) : List Nat :=
  let len := msg.length
  let zeros := (56 + 64 - ((len + 1) % 64)) % 64
  msg ++ [0x80] ++ List.replicate zeros 0 ++ beBytes 8 (len * 8)

def toWords : List Nat → List Nat
  | b0 :: b1 :: b2 :: b3 :: rest => (((b0 * 256 + b1) * 256 + b2) * 256 + b3) :: toWords rest
  | _ => []

def schedule : Nat → List Nat → List Nat
  | 0, ws => ws
  | n + 1, ws =>
    let len := ws.length
    let next := add32 (add32 (smallS1 (ws.getD (len - 2) 0)) (ws.getD (len - 7) 0))
                      (add32 (smallS0 (ws.getD (len - 15) 0)) (ws.getD (len - 16) 0))
    schedule n (ws ++ [next])

structure Hash8 where
  a : Nat
  b : Nat
  c : Nat
  d : Nat
  e : Nat
  f : Nat
  g : Nat
  h : Nat
deriving DecidableEq

def roundStep (st : Hash8) (kw : Nat × Nat) : Hash8 :=
  let t1 := add32 st.h (add32 (bigS1 st.e) (add32 (chf st.e st.f st.g) (add32 kw.1 kw.2)))
  let t2 := add32 (bigS0 st.a) (majf st.a st.b st.c)
  ⟨add32 t1 t2, st.a, st.b, st.c, add32 st.d t1, st.e, st.f, st.g⟩

def compressBlock (st : Hash8) (block : List Nat) : Hash8 :=
  let ws := schedule 48 block
  let r := (K.zip ws).foldl roundStep st
  ⟨add32 st.a r.a, add32 st.b r.b, add32 st.c r.c, add32 st.d r.d,
   add32 st.e r.e, add32 st.f r.f, add32 st.g r.g, add32 st.h r.h⟩

def chunk64 : Nat → List Nat → List (List Nat)
  | 0, _ => []
  | _ + 1, [] => []
  | fuel + 1, l => l.take 64 :: chunk64 fuel (l.drop 64)

def initH : Hash8 :=
  ⟨1779033703, 3144134277, 1013904242, 2773480762, 1359893119, 2600822924, 528734635, 1541459225⟩

def hexDigit (n : Nat) : Char := if n < 10 then Char.ofNat (48 + n) else Char.ofNat (87 + n)

def wordHex (w : Nat) : List Char :=
  (List.range 8).map (fun i => hexDigit ((w >>> (4 * (7 - i))) % 16))

def digest (st : Hash8) : String :=
  ⟨wordHex st.a ++ wordHex st.b ++ wordHex st.c ++ wordHex st.d ++
   wordHex st.e ++ wordHex st.f ++ wordHex st.g ++ wordHex st.h⟩

def sha256Hex (bytes : List Nat) : String :=
  let padded := pad bytes
  digest ((chunk64 padded.length padded).foldl (fun st blk => compressBlock st (toWords blk)) initH)

end SHA256

/-- UTF-8 encoding of one code point. -/
def utf8EncodeChar (n : Nat) : List Nat :=
  if n < 0x80 then [n]
  else if n < 0x800 then [0xC0 ||| (n >>> 6), 0x80 ||| (n &&& 0x3F)]
  else if n < 0x10000 then
    [0xE0 ||| (n >>> 12), 0x80 ||| ((n >>> 6) &&& 0x3F), 0x80 ||| (n &&& 0x3F)]
  else
    [0xF0 ||| (n >>> 18), 0x80 ||| ((n >>> 12) &&& 0x3F), 0x80 ||| ((n >>> 6) &&& 0x3F),
     0x80 ||| (n &&& 0x3F)]

def utf8Encode (s : String) : List Nat := s.data.flatMap (fun c => utf8EncodeChar c.toNat)

/-- monitor.get_content_hash: hex SHA-256 of the UTF-8 encoded content. -/
def getContentHash (content : String) : String := SHA256.sha256Hex (utf8Encode content)


namespace Difflib

structure Best where
  besti : Nat
  bestj : Nat
  bestsize : Nat
deriving DecidableEq

structure Opcode where
  tag : String
  i1 : Nat
  i2 : Nat
  j1 : Nat
  j2 : Nat
deriving DecidableEq

/-- Indices of occurrences of s in b, ascending, as built by the b2j dict. -/
def rawIndices (b : List String) (s : String) : List Nat :=
  (b.enum.filter (fun p => p.2 = s)).map (fun p => p.1)

/-- Autojunk: elements of b occurring more than 1 percent of the time when b has
at least 200 elements are dropped from b2j. -/
def isPopular (b : List String) (s : String) : Bool :=
  decide (200 ≤ b.length) && decide (b.length / 100 + 1 < (rawIndices b s).length)

def b2j (b : List String) (s : String) : List Nat :=
  if isPopular b s then [] else rawIndices b s

def alGet (m : List (Nat × Nat)) (j : Nat) : Nat :=
  match m.find? (fun p => p.1 == j) with
  | some p => p.2
  | none => 0

/-- Inner loop of find_longest_match over the occurrence list of a[i] in b. -/
def innerLoop (blo bhi i : Nat) (j2len : List (Nat × Nat)) :
    List Nat → List (Nat × Nat) → Best → List (Nat × Nat) × Best
  | [], newj2len, best => (newj2len, best)
  | j :: js, newj2len, best =>
    if j < blo then innerLoop blo bhi i j2len js newj2len best
    else if bhi ≤ j then (newj2len, best)
    else
      let k := (if j = 0 then 0 else alGet j2len (j - 1)) + 1
      let newj2len2 := (j, k) :: newj2len
      let best2 := if best.bestsize < k then Best.mk (i + 1 - k) (j + 1 - k) k else best
      innerLoop blo bhi i j2len js newj2len2 best2

/-- Outer loop of find_longest_match over i in the range from alo to ahi. -/
def outerLoop (a b : List String) (blo bhi : Nat) :
    List Nat → List (Nat × Nat) → Best → Best
  | [], _, best => best
  | i :: is, j2len, best =>
    let r := innerLoop blo bhi i j2len (b2j b (a.getD i "")) [] best
    outerLoop a b blo bhi is r.1 r.2

/-- First while loop after the scan: extend the match backwards over equal
elements; no junk exists since isjunk is None and only b2j is filtered. -/
def extendBack (a b : List String) (alo blo : Nat) : Nat → Best → Best
  | 0, best => best
  | fuel + 1, best =>
    if alo < best.besti ∧ blo < best.bestj ∧
       a.getD (best.besti - 1) "" = b.getD (best.bestj - 1) "" then
      extendBack a b alo blo fuel ⟨best.besti - 1, best.bestj - 1, best.bestsize + 1⟩
    else best

/-- Second while loop: extend the match forwards over equal elements. -/
def extendFwd (a b : List String) (ahi bhi : Nat) : Nat → Best → Best
  | 0, best => best
  | fuel + 1, best =>
    if best.besti + best.bestsize < ahi ∧ best.bestj + best.bestsize < bhi ∧
       a.getD (best.besti + best.bestsize) "" = b.getD (best.bestj + best.bestsize) "" then
      extendFwd a b ahi bhi fuel ⟨best.besti, best.bestj, best.bestsize + 1⟩
    else best

def findLongestMatch (a b : List String) (alo ahi blo bhi : Nat) : Best :=
  let best1 := outerLoop a b blo bhi (List.range' alo (ahi - alo)) [] ⟨alo, blo, 0⟩
  let best2 := extendBack a b alo blo best1.besti best1
  extendFwd a b ahi bhi (ahi + 1) best2

/-- Queue-driven loop of get_matching_blocks; the stack head is the most
recently pushed range, matching list.pop on the Python queue. -/
def gmbLoop (a b : List String) : Nat → List (Nat × Nat × Nat × Nat) → List Best → List Best
  | 0, _, acc => acc
  | _ + 1, [], acc => acc
  | fuel + 1, (alo, ahi, blo, bhi) :: stack, acc =>
    let m := findLongestMatch a b alo ahi blo bhi
    if m.bestsize = 0 then gmbLoop a b fuel stack acc
    else
      let s1 := if m.besti + m.bestsize < ahi ∧ m.bestj + m.bestsize < bhi then
                  [(m.besti + m.bestsize, ahi, m.bestj + m.bestsize, bhi)] else []
      let s2 := if alo < m.besti ∧ blo < m.bestj then [(alo, m.besti, blo, m.bestj)] else []
      gmbLoop a b fuel (s1 ++ s2 ++ stack) (acc ++ [m])

def blockLe (x y : Best) : Bool :=
  Nat.blt x.besti y.besti ||
    (x.besti == y.besti &&
      (Nat.blt x.bestj y.bestj || (x.bestj == y.bestj && Nat.ble x.bestsize y.bestsize)))

def insertBlock (x : Best) : List Best → List Best
  | [] => [x]
  | y :: ys => if blockLe x y then x :: y :: ys else y :: insertBlock x ys

def sortBlocks : List Best → List Best
  | [] => []
  | x :: xs => insertBlock x (sortBlocks xs)

/-- Merge adjacent matching blocks, dropping empty ones, as in the second
phase of get_matching_blocks. -/
def collapseBlocks : Best → List Best → List Best
  | cur, [] => if cur.bestsize = 0 then [] else [cur]
  | cur, x :: xs =>
    if cur.besti + cur.bestsize = x.besti ∧ cur.bestj + cur.bestsize = x.bestj then
      collapseBlocks ⟨cur.besti, cur.bestj, cur.bestsize + x.bestsize⟩ xs
    else
      (if cur.bestsize = 0 then [] else [cur]) ++ collapseBlocks x xs

def getMatchingBlocks (a b : List String) : List Best :=
  let raw := gmbLoop a b (2 * (a.length + b.length) + 4) [(0, a.length, 0, b.length)] []
  collapseBlocks ⟨0, 0, 0⟩ (sortBlocks raw) ++ [⟨a.length, b.length, 0⟩]

def goOpcodes : Nat → Nat → List Best → List Opcode
  | _, _, [] => []
  | i, j, m :: ms =>
    let tag : String :=
      if i < m.besti ∧ j < m.bestj then "replace"
      else if i < m.besti then "delete"
      else if j < m.bestj then "insert"
      else ""
    (if tag ≠ "" then [⟨tag, i, m.besti, j, m.bestj⟩] else []) ++
    (if m.bestsize ≠ 0 then
      [⟨"equal", m.besti, m.besti + m.bestsize, m.bestj, m.bestj + m.bestsize⟩] else []) ++
    goOpcodes (m.besti + m.bestsize) (m.bestj + m.bestsize) ms

def getOpcodes (a b : List String) : List Opcode := goOpcodes 0 0 (getMatchingBlocks a b)

def adjustHead (n : Nat) : List Opcode → List Opcode
  | [] => []
  | c :: cs =>
    (if c.tag = "equal" then ⟨c.tag, max c.i1 (c.i2 - n), c.i2, max c.j1 (c.j2 - n), c.j2⟩ else c) :: cs

def adjustLast (n : Nat) : List Opcode → List Opcode
  | [] => []
  | [c] =>
    [if c.tag = "equal" then ⟨c.tag, c.i1, min c.i2 (c.i1 + n), c.j1, min c.j2 (c.j1 + n)⟩ else c]
  | c :: cs => c :: adjustLast n cs

/-- Grouping loop of get_grouped_opcodes: a long equal opcode closes the
current group with n context lines and opens the next one. -/
def groupLoop (n : Nat) : List Opcode → List Opcode → List (List Opcode)
  | group, [] =>
    if group ≠ [] ∧ ¬(group.length = 1 ∧ (group.headD ⟨"", 0, 0, 0, 0⟩).tag = "equal") then
      [group]
    else []
  | group, c :: cs =>
    if c.tag = "equal" ∧ 2 * n < c.i2 - c.i1 then
      (group ++ [⟨c.tag, c.i1, min c.i2 (c.i1 + n), c.j1, min c.j2 (c.j1 + n)⟩]) ::
        groupLoop n [⟨c.tag, max c.i1 (c.i2 - n), c.i2, max c.j1 (c.j2 - n), c.j2⟩] cs
    else groupLoop n (group ++ [c]) cs

def getGroupedOpcodes (n : Nat) (a b : List String) : List (List Opcode) :=
  let codes := getOpcodes a b
  let codes2 := if codes.isEmpty then [⟨"equal", 0, 1, 0, 1⟩] else codes
  groupLoop n [] (adjustLast n (adjustHead n codes2))

def formatRangeUnified (start stop : Nat) : String :=
  let len := stop - start
  if len = 1 then Nat.repr (start + 1)
  else Nat.repr (if len = 0 then start else start + 1) ++ "," ++ Nat.repr len

def sliceList (l : List String) (i j : Nat) : List String := (l.drop i).take (j - i)

def hunkHeader (g : List Opcode) : String :=
  let first := g.headD ⟨"", 0, 0, 0, 0⟩
  let last := g.getLastD ⟨"", 0, 0, 0, 0⟩
  "@@ -" ++ formatRangeUnified first.i1 last.i2 ++ " +" ++
    formatRangeUnified first.j1 last.j2 ++ " @@"

def hunkLines (a b : List String) (g : List Opcode) : List String :=
  g.flatMap (fun c =>
    if c.tag = "equal" then (sliceList a c.i1 c.i2).map (fun l => " " ++ l)
    else
      (if c.tag = "replace" ∨ c.tag = "delete" then
        (sliceList a c.i1 c.i2).map (fun l => "-" ++ l) else []) ++
      (if c.tag = "replace" ∨ c.tag = "insert" then
        (sliceList b c.j1 c.j2).map (fun l => "+" ++ l) else []))

def unifiedDiff (a b : List String) (fromfile tofile : String) : List String :=
  let groups := getGroupedOpcodes 3 a b
  if groups.isEmpty then []
  else ("--- " ++ fromfile) :: ("+++ " ++ tofile) ::
    groups.flatMap (fun g => hunkHeader g :: hunkLines a b g)

end Difflib

/-- monitor.get_diff: unified diff of the two contents split keeping line ends. -/
def getDiff (oldContent newContent : String) : List String :=
  Difflib.unifiedDiff (pySplitlines true oldContent) (pySplitlines true newContent)
    "previous" "current"

/-- The diff-line count stored in a change_detected event: lines of the diff
starting with a plus or minus sign, which includes the two file header lines. -/
def diffLineCount (diff : List String) : Nat :=
  (diff.filter (fun l => startsWithChar l '+' || startsWithChar l '-')).length


/-- Python str.lower restricted to code points below 256, where the full
Unicode lowercasing acts character by character: ASCII A-Z and the Latin-1
uppercase letters U+00C0-U+00DE except the multiplication sign map down by
0x20; everything else in that range is unchanged. Code points of 256 and
above are modelled as unchanged; theorems about filename derivation
therefore restrict names to Latin-1 characters. -/
def pyLowerChar (c : Char) : Char :=
  let n := c.toNat
  if 0x41 ≤ n ∧ n ≤ 0x5A then Char.ofNat (n + 0x20)
  else if 0xC0 ≤ n ∧ n ≤ 0xDE ∧ n ≠ 0xD7 then Char.ofNat (n + 0x20)
  else c

/-- The regex class backslash-w of Python 3 on str, restricted to code points
below 256: ASCII alphanumerics and underscore, the feminine and masculine
ordinal indicators, the micro sign, the superscript digits, the vulgar
fractions, and the Latin-1 letters except the multiplication and division
signs. Code points of 256 and above are modelled as not matching; theorems
about filename derivation therefore restrict names to Latin-1 characters. -/
def pyIsWordChar (c : Char) : Bool :=
  let n := c.toNat
  decide ((0x30 ≤ n ∧ n ≤ 0x39) ∨ (0x41 ≤ n ∧ n ≤ 0x5A) ∨ (0x61 ≤ n ∧ n ≤ 0x7A) ∨
    n = 0x5F ∨ n = 0xAA ∨ n = 0xB5 ∨ n = 0xBA ∨ n = 0xB2 ∨ n = 0xB3 ∨ n = 0xB9 ∨
    (0xBC ≤ n ∧ n ≤ 0xBE) ∨ (0xC0 ≤ n ∧ n ≤ 0xFF ∧ n ≠ 0xD7 ∧ n ≠ 0xF7))

/-- re.sub applied with the pattern matching any single character that is
neither a word character nor a hyphen, replacing each match with an
underscore. -/
def reSubNonWordToUnderscore : List Char → List Char
  | [] => []
  | c :: cs =>
    (if pyIsWordChar c || c = '-' then c else '_') :: reSubNonWordToUnderscore cs

/-- monitor._get_safe_filename: lower the name, then replace every character
matching the class complement by an underscore. -/
def safeFilename (name : String) : String :=
  ⟨reSubNonWordToUnderscore (name.data.map pyLowerChar)⟩

/-- Modelled from the spec: filename derivation as the spec words it, namely
lower-case the name and replace every character outside A-Z, a-z, 0-9,
underscore and hyphen with an underscore. Kept for comparison with
safeFilename, which is the definition taken from the source. -/
def specSafeFilename (name : String) : String :=
  ⟨(name.data.map pyLowerChar).map (fun c =>
    if ('A' ≤ c ∧ c ≤ 'Z') ∨ ('a' ≤ c ∧ c ≤ 'z') ∨ ('0' ≤ c ∧ c ≤ '9') ∨
       c = '_' ∨ c = '-' then c else '_')⟩

/-- One entry of a history file: the JSON objects appended by check_site. -/
inductive HistEvent where
  | initialSnapshot (timestamp : String) (contentHash : String)
  | changeDetected (timestamp : String) (old_hash new_hash : String) (diff_lines : Nat)
deriving DecidableEq

def HistEvent.timestamp : HistEvent → String
  | .initialSnapshot t _ => t
  | .changeDetected t _ _ _ => t

/-- The value of the event field of the JSON object. -/
def HistEvent.eventName : HistEvent → String
  | .initialSnapshot _ _ => "initial_snapshot"
  | .changeDetected _ _ _ _ => "change_detected"

/-- monitor.ChangeRecord. -/
structure ChangeRecord where
  site_name : String
  url : String
  timestamp : String
  old_hash : String
  new_hash : String
  diff : List String
  old_content : String
  new_content : String
deriving DecidableEq

/-- monitor.SiteConfig; headers are an association list and the selector is
optional as in the dataclass. -/
structure SiteConfig where
  name : String
  url : String
  mode : String
  selector : Option String
  interval : Option Nat
  ignore : List String
  headers : List (String × String)
deriving DecidableEq

/-- The data directory: snapshot files and history files, each keyed by the
derived safe filename. A key is present exactly when the file exists. -/
structure MonitorState where
  snapshots : List (String × String)
  histories : List (String × List HistEvent)
deriving DecidableEq

def alookup {α : Type} : List (String × α) → String → Option α
  | [], _ => none
  | (k, v) :: rest, key => if k = key then some v else alookup rest key

/-- Whole-file overwrite: replace the value when the key exists, create the
entry otherwise. -/
def astore {α : Type} : List (String × α) → String → α → List (String × α)
  | [], key, v => [(key, v)]
  | (k, w) :: rest, key, v =>
    if k = key then (key, v) :: rest else (k, w) :: astore rest key v

/-- The raw bytes of the snapshot file of a target, if the file exists. -/
def snapshotFileContent (st : MonitorState) (name : String) : Option String :=
  alookup st.snapshots (safeFilename name)

/-- monitor.load_snapshot: the file is opened in text mode with no newline
argument, so universal-newlines translation rewrites CR LF and lone CR to
LF in the returned text. -/
def loadSnapshot (st : MonitorState) (name : String) : Option String :=
  (snapshotFileContent st name).map univNewlines

/-- monitor.save_snapshot: text-mode write; on the reference platform the
line separator is LF, so the written bytes are the content itself. -/
def saveSnapshot (st : MonitorState) (name content : String) : MonitorState :=
  { st with snapshots := astore st.snapshots (safeFilename name) content }

/-- monitor.load_history: the parsed JSON array, or an empty list when the
file does not exist. JSON escapes every control character inside strings,
so the round trip through the file is exact and is modelled directly. -/
def loadHistory (st : MonitorState) (name : String) : List HistEvent :=
  (alookup st.histories (safeFilename name)).getD []

/-- monitor.save_history. -/
def saveHistory (st : MonitorState) (name : String) (h : List HistEvent) : MonitorState :=
  { st with histories := astore st.histories (safeFilename name) h }

/-- Abstract interface to the parsed document, standing for the BeautifulSoup
operations used by fetch_content: removing the elements matching the ignore
selectors, collecting the stripped texts of the elements matching a
selector, removing script, style, noscript and iframe elements, and
extracting the visible text with newline separators. -/
structure SoupOps (Doc : Type) where
  removeIgnored : Doc → List String → Doc
  selectTexts : Doc → String → List String
  removeScriptStyle : Doc → Doc
  getText : Doc → String

/-- Outcome of the requests.get call together with response.raise_for_status:
either the decoded body with its parse, or a RequestException message. -/
inductive FetchOutcome (Doc : Type) where
  | success (raw : String) (parsed : Doc)
  | failure (msg : String)

/-- Python truthiness of the optional selector string: None and the empty
string are falsy. -/
def truthyStr : Option String → Bool
  | none => false
  | some s => s ≠ ""

/-- The whitespace normalization at the end of the text mode branch of
fetch_content: split into lines, strip each, drop empties, rejoin. -/
def normalizeText (t : String) : String :=
  String.intercalate "\n" (((pySplitlines false t).map pyStrip).filter (fun l => l ≠ ""))

/-- monitor.fetch_content: full mode returns the raw body; selector mode with
a truthy selector returns the joined element texts or None when nothing
matches; otherwise the text mode pipeline runs. A RequestException is
re-raised as a RuntimeError with the fetch failure message. -/
def fetchContent {Doc : Type} (ops : SoupOps Doc) (site : SiteConfig)
    (o : FetchOutcome Doc) : Except String (Option String) :=
  match o with
  | .failure msg => .error ("Failed to fetch " ++ site.url ++ ": " ++ msg)
  | .success raw parsed =>
    if site.mode = "full" then .ok (some raw)
    else
      let soup := ops.removeIgnored parsed site.ignore
      if site.mode = "selector" ∧ truthyStr site.selector then
        let texts := ops.selectTexts soup (site.selector.getD "")
        if texts.isEmpty then .ok none
        else .ok (some (String.intercalate "\n" texts))
      else
        .ok (some (normalizeText (ops.getText (ops.removeScriptStyle soup))))

/-- The body of monitor.check_site after fetch_content has produced its
optional content; now is the datetime.now().isoformat() value of this call. -/
def checkSiteCore (st : MonitorState) (site : SiteConfig) (now : String)
    (currentContent : Option String) : Option ChangeRecord × MonitorState :=
  match currentContent with
  | none => (none, st)
  | some current =>
    let currentHash := getContentHash current
    match loadSnapshot st site.name with
    | none =>
      let st1 := saveSnapshot st site.name current
      let history := loadHistory st1 site.name
      let st2 := saveHistory st1 site.name
        (history ++ [HistEvent.initialSnapshot now currentHash])
      (none, st2)
    | some previousContent =>
      let previousHash := getContentHash previousContent
      if currentHash ≠ previousHash then
        let diff := getDiff previousContent current
        let st1 := saveSnapshot st site.name current
        let history := loadHistory st1 site.name
        let st2 := saveHistory st1 site.name
          (history ++ [HistEvent.changeDetected now previousHash currentHash
            (diffLineCount diff)])
        (some ⟨site.name, site.url, now, previousHash, currentHash, diff,
          previousContent, current⟩, st2)
      else (none, st)

/-- monitor.check_site including its call to fetch_content: a fetch failure
propagates as the error and leaves the state untouched. -/
def checkSiteRun {Doc : Type} (ops : SoupOps Doc) (st : MonitorState)
    (site : SiteConfig) (now : String) (o : FetchOutcome Doc) :
    Except String (Option ChangeRecord) × MonitorState :=
  match fetchContent ops site o with
  | .error e => (.error e, st)
  | .ok c =>
    let r := checkSiteCore st site now c
    (.ok r.1, r.2)

/-- Successive runs of check_site on the same extracted content, one per
timestamp in the list, in order. -/
def iterateChecks (site : SiteConfig) (content : String) :
    List String → MonitorState → MonitorState
  | [], st => st
  | t :: rest, st =>
    iterateChecks site content rest (checkSiteCore st site t (some content)).2

/-- The dictionary returned by monitor.get_site_status. -/
structure SiteStatus where
  has_snapshot : Bool
  total_changes : Nat
  last_check : Option String
  history : List HistEvent
deriving DecidableEq

/-- monitor.get_site_status. -/
def getSiteStatus (st : MonitorState) (name : String) : SiteStatus :=
  let history := loadHistory st name
  { has_snapshot := (snapshotFileContent st name).isSome
    total_changes := (history.filter (fun h => h.eventName = "change_detected")).length
    last_check := history.getLast?.map HistEvent.timestamp
    history := history.drop (history.length - 10) }

/-- bot.check_site: runs the monitor check inside a try block, so any error is
logged and swallowed; a detected change is handed to the notifiers. -/
def botCheckSite {Doc : Type} (ops : SoupOps Doc) (st : MonitorState)
    (now : String) (target : SiteConfig × FetchOutcome Doc) :
    MonitorState × List ChangeRecord :=
  match checkSiteRun ops st target.1 now target.2 with
  | (.error _, st2) => (st2, [])
  | (.ok none, st2) => (st2, [])
  | (.ok (some ch), st2) => (st2, [ch])

/-- bot.check_all_sites over an ordered batch, threading the data directory
state and collecting the dispatched change records in order. -/
def checkAllSites {Doc : Type} (ops : SoupOps Doc) (now : String) :
    MonitorState → List (SiteConfig × FetchOutcome Doc) →
    MonitorState × List ChangeRecord
  | st, [] => (st, [])
  | st, t :: ts =>
    let r1 := botCheckSite ops st now t
    let r2 := checkAllSites ops now r1.1 ts
    (r2.1, r1.2 ++ r2.2)


theorem alookup_astore_self {α : Type} (l : List (String × α)) (k : String) (v : α) :
    alookup (astore l k v) k = some v := by
  induction l with
  | nil => simp [astore, alookup]
  | cons p rest ih =>
    obtain ⟨k1, v1⟩ := p
    by_cases h : k1 = k
    · simp [astore, h, alookup]
    · simp [astore, h, alookup, ih]

theorem alookup_astore_ne {α : Type} (l : List (String × α)) (k k' : String) (v : α)
    (h : k' ≠ k) : alookup (astore l k v) k' = alookup l k' := by
  induction l with
  | nil => simp [astore, alookup, Ne.symm h]
  | cons p rest ih =>
    obtain ⟨k1, v1⟩ := p
    by_cases h1 : k1 = k
    · subst h1
      simp [astore, alookup, Ne.symm h]
    · simp [astore, h1, alookup, ih]

theorem univNLChars_of_no_cr (l : List Char) (h : ∀ c ∈ l, c ≠ '\r') :
    univNLChars l = l := by
  induction l with
  | nil => rfl
  | cons c rest ih =>
    cases rest with
    | nil =>
      have hc : c ≠ '\r' := h c (by simp)
      simp [univNLChars, hc]
    | cons d rest2 =>
      have hc : c ≠ '\r' := h c (by simp)
      have ht : univNLChars (d :: rest2) = d :: rest2 :=
        ih (fun x hx => h x (List.mem_cons_of_mem c hx))
      simp [univNLChars, hc, ht]

theorem univNewlines_of_crFree (s : String) (h : crFree s = true) : univNewlines s = s := by
  have h2 : ∀ c ∈ s.data, c ≠ '\r' := by
    intro c hc
    simpa using List.all_eq_true.mp h c hc
  apply String.ext
  simpa [univNewlines] using univNLChars_of_no_cr s.data h2

theorem snapshotFileContent_saveSnapshot_self (st : MonitorState) (name c : String) :
    snapshotFileContent (saveSnapshot st name c) name = some c := by
  simp [snapshotFileContent, saveSnapshot, alookup_astore_self]

theorem snapshotFileContent_saveSnapshot_ne (st : MonitorState) (name c other : String)
    (h : safeFilename other ≠ safeFilename name) :
    snapshotFileContent (saveSnapshot st name c) other = snapshotFileContent st other := by
  simp [snapshotFileContent, saveSnapshot, alookup_astore_ne _ _ _ _ h]

theorem snapshotFileContent_saveHistory (st : MonitorState) (name : String)
    (hist : List HistEvent) (other : String) :
    snapshotFileContent (saveHistory st name hist) other = snapshotFileContent st other := rfl

theorem loadHistory_saveSnapshot (st : MonitorState) (name c other : String) :
    loadHistory (saveSnapshot st name c) other = loadHistory st other := rfl

theorem loadHistory_saveHistory_self (st : MonitorState) (name : String)
    (hist : List HistEvent) :
    loadHistory (saveHistory st name hist) name = hist := by
  simp [loadHistory, saveHistory, alookup_astore_self]

theorem loadHistory_saveHistory_ne (st : MonitorState) (name : String)
    (hist : List HistEvent) (other : String)
    (h : safeFilename other ≠ safeFilename name) :
    loadHistory (saveHistory st name hist) other = loadHistory st other := by
  simp [loadHistory, saveHistory, alookup_astore_ne _ _ _ _ h]

theorem checkSiteCore_fresh (st : MonitorState) (site : SiteConfig) (now A : String)
    (hload : loadSnapshot st site.name = none) :
    checkSiteCore st site now (some A) =
      (none, saveHistory (saveSnapshot st site.name A) site.name
        (loadHistory st site.name ++ [HistEvent.initialSnapshot now (getContentHash A)])) := by
  unfold checkSiteCore
  rw [hload]
  rfl

theorem checkSiteCore_steady (st : MonitorState) (site : SiteConfig) (now prev current : String)
    (hload : loadSnapshot st site.name = some prev)
    (heq : getContentHash current = getContentHash prev) :
    checkSiteCore st site now (some current) = (none, st) := by
  unfold checkSiteCore
  rw [hload]
  simp [heq]

theorem checkSiteCore_change (st : MonitorState) (site : SiteConfig) (now prev current : String)
    (hload : loadSnapshot st site.name = some prev)
    (hne : getContentHash current ≠ getContentHash prev) :
    checkSiteCore st site now (some current) =
      (some ⟨site.name, site.url, now, getContentHash prev, getContentHash current,
        getDiff prev current, prev, current⟩,
       saveHistory (saveSnapshot st site.name current) site.name
         (loadHistory st site.name ++
          [HistEvent.changeDetected now (getContentHash prev) (getContentHash current)
            (diffLineCount (getDiff prev current))])) := by
  unfold checkSiteCore
  rw [hload]
  simp only [ne_eq, hne, not_false_eq_true, if_true]
  rfl


theorem checkSiteCore_frame (st : MonitorState) (site : SiteConfig) (now : String)
    (c : Option String) (other : String)
    (h : safeFilename other ≠ safeFilename site.name) :
    snapshotFileContent (checkSiteCore st site now c).2 other = snapshotFileContent st other ∧
    loadHistory (checkSiteCore st site now c).2 other = loadHistory st other := by
  cases c with
  | none => exact ⟨rfl, rfl⟩
  | some current =>
    cases hls : loadSnapshot st site.name with
    | none =>
      rw [checkSiteCore_fresh st site now current hls]
      constructor
      · rw [snapshotFileContent_saveHistory, snapshotFileContent_saveSnapshot_ne st site.name current other h]
      · rw [loadHistory_saveHistory_ne _ _ _ _ h, loadHistory_saveSnapshot]
    | some prev =>
      by_cases hne : getContentHash current = getContentHash prev
      · rw [checkSiteCore_steady st site now prev current hls hne]
        exact ⟨rfl, rfl⟩
      · rw [checkSiteCore_change st site now prev current hls hne]
        constructor
        · rw [snapshotFileContent_saveHistory, snapshotFileContent_saveSnapshot_ne st site.name current other h]
        · rw [loadHistory_saveHistory_ne _ _ _ _ h, loadHistory_saveSnapshot]

theorem botCheckSite_failure {Doc : Type} (ops : SoupOps Doc) (st : MonitorState)
    (now : String) (s : SiteConfig) (msg : String) :
    botCheckSite ops st now (s, FetchOutcome.failure msg) = (st, []) := rfl

theorem botCheckSite_frame {Doc : Type} (ops : SoupOps Doc) (st : MonitorState)
    (now : String) (t : SiteConfig × FetchOutcome Doc) (other : String)
    (h : safeFilename other ≠ safeFilename t.1.name) :
    snapshotFileContent (botCheckSite ops st now t).1 other = snapshotFileContent st other ∧
    loadHistory (botCheckSite ops st now t).1 other = loadHistory st other := by
  unfold botCheckSite checkSiteRun
  cases hfc : fetchContent ops t.1 t.2 with
  | error e => exact ⟨rfl, rfl⟩
  | ok c =>
    have hframe := checkSiteCore_frame st t.1 now c other h
    cases hcc : (checkSiteCore st t.1 now c).1 with
    | none =>
      simp only []
      rw [show (checkSiteCore st t.1 now c) = (none, (checkSiteCore st t.1 now c).2) from by
        rw [← hcc]]
      exact hframe
    | some ch =>
      simp only []
      rw [show (checkSiteCore st t.1 now c) = (some ch, (checkSiteCore st t.1 now c).2) from by
        rw [← hcc]]
      exact hframe

theorem checkAllSites_append {Doc : Type} (ops : SoupOps Doc) (now : String)
    (xs ys : List (SiteConfig × FetchOutcome Doc)) (st : MonitorState) :
    checkAllSites ops now st (xs ++ ys) =
      ((checkAllSites ops now (checkAllSites ops now st xs).1 ys).1,
       (checkAllSites ops now st xs).2 ++
         (checkAllSites ops now (checkAllSites ops now st xs).1 ys).2) := by
  induction xs generalizing st with
  | nil => simp [checkAllSites]
  | cons t ts ih => simp [checkAllSites, ih]

theorem checkAllSites_frame {Doc : Type} (ops : SoupOps Doc) (now : String)
    (batch : List (SiteConfig × FetchOutcome Doc)) (st : MonitorState) (other : String)
    (h : ∀ p ∈ batch, safeFilename other ≠ safeFilename p.1.name) :
    snapshotFileContent (checkAllSites ops now st batch).1 other = snapshotFileContent st other ∧
    loadHistory (checkAllSites ops now st batch).1 other = loadHistory st other := by
  induction batch generalizing st with
  | nil => exact ⟨rfl, rfl⟩
  | cons t ts ih =>
    have h1 := botCheckSite_frame ops st now t other (h t (List.mem_cons_self t ts))
    have h2 := ih (botCheckSite ops st now t).1 (fun p hp => h p (List.mem_cons_of_mem t hp))
    exact ⟨by rw [show (checkAllSites ops now st (t :: ts)).1 =
            (checkAllSites ops now (botCheckSite ops st now t).1 ts).1 from rfl,
            h2.1, h1.1],
          by rw [show (checkAllSites ops now st (t :: ts)).1 =
            (checkAllSites ops now (botCheckSite ops st now t).1 ts).1 from rfl,
            h2.2, h1.2]⟩


theorem reSub_eq_map (l : List Char) :
    reSubNonWordToUnderscore l =
      l.map (fun c => if pyIsWordChar c || c = '-' then c else '_') := by
  induction l with
  | nil => rfl
  | cons c cs ih => simp [reSubNonWordToUnderscore, ih]

theorem iterate_steady (site : SiteConfig) (A : String) :
    ∀ (rest : List String) (st' : MonitorState),
      loadSnapshot st' site.name = some A →
      iterateChecks site A rest st' = st' := by
  intro rest
  induction rest with
  | nil => intro st' _; rfl
  | cons t ts ih =>
    intro st' h
    have e := checkSiteCore_steady st' site t A A h rfl
    show iterateChecks site A ts (checkSiteCore st' site t (some A)).2 = st'
    rw [e]
    exact ih st' h

/-- C7: a fetch failure, covering network errors, timeouts and bad HTTP
status codes, all raised as a RequestException and re-raised by
fetch_content as a RuntimeError, propagates out of check_site as a distinct
error value carrying the fetch failure message, and the returned state, both
snapshot store and history store, is exactly the state before the check. -/
theorem fetch_failure_preserves_state {Doc : Type} (ops : SoupOps Doc)
    (st : MonitorState) (site : SiteConfig) (now msg : String) :
    checkSiteRun ops st site now (FetchOutcome.failure msg) =
      (Except.error ("Failed to fetch " ++ site.url ++ ": " ++ msg), st) := rfl

/-- C6: in selector mode with a truthy selector, when no element of the
fetched document matches the selector, check_site returns none and the
state, snapshots and histories alike, is returned untouched, whatever prior
snapshot or history the target had. -/
theorem selector_empty_no_change {Doc : Type} (ops : SoupOps Doc) (st : MonitorState)
    (site : SiteConfig) (now raw : String) (parsed : Doc)
    (hmode : site.mode = "selector") (hsel : truthyStr site.selector = true)
    (hempty : ops.selectTexts (ops.removeIgnored parsed site.ignore)
      (site.selector.getD "") = []) :
    checkSiteRun ops st site now (FetchOutcome.success raw parsed) = (Except.ok none, st) := by
  have hfc : fetchContent ops site (FetchOutcome.success raw parsed) = Except.ok none := by
    simp only [fetchContent]
    rw [hmode]
    rw [if_neg (by decide : ¬ ("selector" : String) = "full")]
    rw [if_pos ⟨rfl, hsel⟩]
    rw [hempty]
    rfl
  unfold checkSiteRun
  rw [hfc]
  rfl

/-- C10: in selector mode with an absent or empty selector, fetch_content
silently takes the text branch: ignore patterns are removed, script, style,
noscript and iframe elements are removed, and the line-normalized visible
text is returned, exactly as if the mode had been text. -/
theorem selector_falsy_behaves_as_text {Doc : Type} (ops : SoupOps Doc)
    (site : SiteConfig) (raw : String) (parsed : Doc)
    (hmode : site.mode = "selector") (hsel : truthyStr site.selector = false) :
    fetchContent ops site (FetchOutcome.success raw parsed) =
      Except.ok (some (normalizeText (ops.getText (ops.removeScriptStyle
        (ops.removeIgnored parsed site.ignore))))) ∧
    fetchContent ops site (FetchOutcome.success raw parsed) =
      fetchContent ops { site with mode := "text" } (FetchOutcome.success raw parsed) := by
  have h1 : fetchContent ops site (FetchOutcome.success raw parsed) =
      Except.ok (some (normalizeText (ops.getText (ops.removeScriptStyle
        (ops.removeIgnored parsed site.ignore))))) := by
    simp only [fetchContent]
    rw [hmode]
    rw [if_neg (by decide : ¬ ("selector" : String) = "full")]
    rw [if_neg (by simp [hsel] : ¬ (("selector" : String) = "selector" ∧ truthyStr site.selector))]
  have h2 : fetchContent ops { site with mode := "text" } (FetchOutcome.success raw parsed) =
      Except.ok (some (normalizeText (ops.getText (ops.removeScriptStyle
        (ops.removeIgnored parsed site.ignore))))) := by
    simp only [fetchContent]
    rw [if_neg (by decide : ¬ ("text" : String) = "full")]
    rw [if_neg (by simp : ¬ (("text" : String) = "selector" ∧
      truthyStr site.selector))]
  exact ⟨h1, by rw [h1, h2]⟩

/-- C4 (amended): loading a snapshot immediately after saving it returns the
text with CR LF and lone CR translated to LF, because load_snapshot opens
the file in text mode with universal newlines; the round trip is exact,
byte for byte, precisely for texts free of carriage returns. -/
theorem snapshot_round_trip_newline (st : MonitorState) (name text : String) :
    loadSnapshot (saveSnapshot st name text) name = some (univNewlines text) ∧
    (crFree text = true → loadSnapshot (saveSnapshot st name text) name = some text) := by
  have h1 : loadSnapshot (saveSnapshot st name text) name = some (univNewlines text) := by
    simp [loadSnapshot, snapshotFileContent_saveSnapshot_self]
  exact ⟨h1, fun hcr => by rw [h1, univNewlines_of_crFree text hcr]⟩

/-- C4 witness at a concrete carriage-return-free text. -/
theorem snapshot_round_trip_newline_witness :
    crFree "abc" = true ∧
    loadSnapshot (saveSnapshot ⟨[], []⟩ "t" "abc") "t" = some "abc" :=
  ⟨by decide, (snapshot_round_trip_newline ⟨[], []⟩ "t" "abc").2 (by decide)⟩

/-- C4 counterexample: saving a text holding a carriage return and loading it
back returns a different text, so the round trip is not byte for byte. -/
theorem snapshot_round_trip_cr_cx :
    loadSnapshot (saveSnapshot ⟨[], []⟩ "t" "a\rb") "t" = some "a\nb" ∧
    ("a\nb" : String) ≠ "a\rb" := by
  exact ⟨by decide, by decide⟩


/-- Trivial document operations over a unit document, used by witnesses. -/
def unitOps : SoupOps Unit := ⟨fun d _ => d, fun _ _ => [], fun d => d, fun _ => ""⟩

/-- A text-mode target used by witnesses. -/
def exSite : SiteConfig := ⟨"s", "u", "text", none, none, [], []⟩

/-- A full-mode target used by counterexamples. -/
def fullSite : SiteConfig := ⟨"s", "u", "full", none, none, [], []⟩

/-- A selector-mode target with a truthy selector, used by witnesses. -/
def selSite : SiteConfig := ⟨"n", "u", "selector", some "div", none, [], []⟩

/-- A selector-mode target with an empty selector, used by witnesses. -/
def selSiteEmpty : SiteConfig := ⟨"n", "u", "selector", some "", none, [], []⟩

/-- C6 witness: a concrete selector-mode target whose selector matches no
element, checked against a state holding a different prior snapshot. -/
theorem selector_empty_no_change_witness :
    selSite.mode = "selector" ∧ truthyStr selSite.selector = true ∧
    unitOps.selectTexts (unitOps.removeIgnored () selSite.ignore)
      (selSite.selector.getD "") = [] ∧
    checkSiteRun unitOps ⟨[("n", "old")], []⟩ selSite "t"
      (FetchOutcome.success "raw" ()) = (Except.ok none, ⟨[("n", "old")], []⟩) :=
  ⟨rfl, by decide, rfl,
    selector_empty_no_change unitOps ⟨[("n", "old")], []⟩ selSite "t" "raw" ()
      rfl (by decide) rfl⟩

/-- C10 witness: a concrete selector-mode target with an empty selector. -/
theorem selector_falsy_behaves_as_text_witness :
    selSiteEmpty.mode = "selector" ∧ truthyStr selSiteEmpty.selector = false ∧
    (fetchContent unitOps selSiteEmpty (FetchOutcome.success "raw" ()) =
      Except.ok (some (normalizeText (unitOps.getText (unitOps.removeScriptStyle
        (unitOps.removeIgnored () selSiteEmpty.ignore))))) ∧
     fetchContent unitOps selSiteEmpty (FetchOutcome.success "raw" ()) =
       fetchContent unitOps { selSiteEmpty with mode := "text" }
         (FetchOutcome.success "raw" ())) :=
  ⟨rfl, by decide,
    selector_falsy_behaves_as_text unitOps selSiteEmpty "raw" () rfl (by decide)⟩

/-- C3 counterexample: a name consisting of the single letter e-acute is kept
unchanged by the code, since the Unicode word class of the regex matches it,
while the spec formula keeping only ASCII word characters and the hyphen
would replace it with an underscore. -/
theorem safe_filename_nonascii_cx :
    safeFilename "é" = "é" ∧ specSafeFilename "é" = "_" ∧
    safeFilename "é" ≠ specSafeFilename "é" :=
  ⟨rfl, rfl, by decide⟩

/-- C3 (amended): for names of Latin-1 characters, the derived token is the
lower-cased name in which every character that is neither a Python word
character nor a hyphen is replaced by an underscore; the word class is the
Unicode one, so non-ASCII letters such as e-acute are kept, not replaced. -/
theorem safe_filename_latin1 (name : String)
    (_latin1 : ∀ c ∈ name.data, c.toNat < 256) :
    (safeFilename name).data =
      (name.data.map pyLowerChar).map
        (fun c => if pyIsWordChar c || c = '-' then c else '_') := by
  simp [safeFilename, reSub_eq_map]

/-- C3 witness at a concrete Latin-1 name. -/
theorem safe_filename_latin1_witness :
    (∀ c ∈ ("My Sité-2 !" : String).data, c.toNat < 256) ∧
    (safeFilename "My Sité-2 !").data =
      (("My Sité-2 !" : String).data.map pyLowerChar).map
        (fun c => if pyIsWordChar c || c = '-' then c else '_') :=
  ⟨by decide, safe_filename_latin1 "My Sité-2 !" (by decide)⟩

/-- C2 at the failing input: for old lines a, b, c and new lines a, x, c the
unified diff holds one removed and one added body line, yet the diff_lines
value recorded in the change_detected event is 4, because the two file
header lines of the unified diff also begin with a minus or plus sign and
are counted; the spec expects added plus removed, which is 2. -/
theorem diff_line_count_example :
    getDiff "a\nb\nc" "a\nx\nc" =
      ["--- previous", "+++ current", "@@ -1,3 +1,3 @@", " a\n", "-b\n", "+x\n", " c"] ∧
    diffLineCount (getDiff "a\nb\nc" "a\nx\nc") = 4 ∧
    loadHistory (checkSiteCore (checkSiteCore ⟨[], []⟩ exSite "t1" (some "a\nb\nc")).2
        exSite "t2" (some "a\nx\nc")).2 "s" =
      [HistEvent.initialSnapshot "t1" (getContentHash "a\nb\nc"),
       HistEvent.changeDetected "t2" (getContentHash "a\nb\nc")
         (getContentHash "a\nx\nc") 4] :=
  ⟨by decide, by decide, by decide⟩

/-- C9: get_site_status reports whether a snapshot exists, counts only the
change_detected events, reports the timestamp of the last event or none for
an empty history, and returns exactly the last ten history events in order;
appending an initial_snapshot event leaves the change count unchanged. -/
theorem site_status_fields (st : MonitorState) (name t h0 : String) :
    (getSiteStatus st name).has_snapshot = (snapshotFileContent st name).isSome ∧
    (getSiteStatus st name).total_changes =
      ((loadHistory st name).filter (fun e => e.eventName = "change_detected")).length ∧
    (getSiteStatus st name).last_check =
      ((loadHistory st name).getLast?).map HistEvent.timestamp ∧
    (getSiteStatus st name).history =
      (loadHistory st name).drop ((loadHistory st name).length - 10) ∧
    (getSiteStatus st name).history.length = min 10 (loadHistory st name).length ∧
    List.IsSuffix (getSiteStatus st name).history (loadHistory st name) ∧
    (getSiteStatus (saveHistory st name
        (loadHistory st name ++ [HistEvent.initialSnapshot t h0])) name).total_changes =
      (getSiteStatus st name).total_changes := by
  refine ⟨rfl, rfl, rfl, rfl, ?_, ?_, ?_⟩
  · simp [getSiteStatus]
    omega
  · exact List.drop_suffix _ _
  · simp [getSiteStatus, loadHistory_saveHistory_self, List.filter_append, HistEvent.eventName]


/-- C1 (amended): for a previously-unseen target and two texts with distinct
SHA-256 digests, the first free of carriage returns, the check sequence
stores the first text, appends the single initial_snapshot event carrying
its hash and returns none; the second check stores the second text, appends
a change_detected event carrying both hashes and the diff line count, and
returns a change record whose old and new content are the two texts. -/
theorem change_detection_two_checks (st : MonitorState) (site : SiteConfig)
    (A B t1 t2 : String)
    (hsnap : snapshotFileContent st site.name = none)
    (hhist : loadHistory st site.name = [])
    (hcr : crFree A = true)
    (hhash : getContentHash A ≠ getContentHash B) :
    (checkSiteCore st site t1 (some A)).1 = none ∧
    snapshotFileContent (checkSiteCore st site t1 (some A)).2 site.name = some A ∧
    loadHistory (checkSiteCore st site t1 (some A)).2 site.name =
      [HistEvent.initialSnapshot t1 (getContentHash A)] ∧
    (checkSiteCore (checkSiteCore st site t1 (some A)).2 site t2 (some B)).1 =
      some ⟨site.name, site.url, t2, getContentHash A, getContentHash B,
        getDiff A B, A, B⟩ ∧
    snapshotFileContent
      (checkSiteCore (checkSiteCore st site t1 (some A)).2 site t2 (some B)).2
      site.name = some B ∧
    loadHistory
      (checkSiteCore (checkSiteCore st site t1 (some A)).2 site t2 (some B)).2
      site.name =
      [HistEvent.initialSnapshot t1 (getContentHash A),
       HistEvent.changeDetected t2 (getContentHash A) (getContentHash B)
         (diffLineCount (getDiff A B))] := by
  have hload : loadSnapshot st site.name = none := by simp [loadSnapshot, hsnap]
  have e1 := checkSiteCore_fresh st site t1 A hload
  have hs1 : snapshotFileContent (checkSiteCore st site t1 (some A)).2 site.name = some A := by
    simp [e1, snapshotFileContent_saveHistory, snapshotFileContent_saveSnapshot_self]
  have hh1 : loadHistory (checkSiteCore st site t1 (some A)).2 site.name =
      [HistEvent.initialSnapshot t1 (getContentHash A)] := by
    simp [e1, loadHistory_saveHistory_self, hhist]
  have hl1 : loadSnapshot (checkSiteCore st site t1 (some A)).2 site.name = some A := by
    simp [loadSnapshot, hs1, univNewlines_of_crFree A hcr]
  have e2 := checkSiteCore_change (checkSiteCore st site t1 (some A)).2 site t2 A B hl1
    (Ne.symm hhash)
  refine ⟨by simp [e1], hs1, hh1, by simp [e2], ?_, ?_⟩
  · simp [e2, snapshotFileContent_saveHistory, snapshotFileContent_saveSnapshot_self]
  · simp only [e2]
    rw [loadHistory_saveHistory_self, hh1]
    rfl

/-- C1 witness at two concrete one-letter texts. -/
theorem change_detection_two_checks_witness :
    (snapshotFileContent ⟨[], []⟩ exSite.name = none ∧
     loadHistory ⟨[], []⟩ exSite.name = [] ∧
     crFree "a" = true ∧
     getContentHash "a" ≠ getContentHash "b") ∧
    ((checkSiteCore ⟨[], []⟩ exSite "t1" (some "a")).1 = none ∧
     snapshotFileContent (checkSiteCore ⟨[], []⟩ exSite "t1" (some "a")).2 exSite.name =
       some "a" ∧
     loadHistory (checkSiteCore ⟨[], []⟩ exSite "t1" (some "a")).2 exSite.name =
       [HistEvent.initialSnapshot "t1" (getContentHash "a")] ∧
     (checkSiteCore (checkSiteCore ⟨[], []⟩ exSite "t1" (some "a")).2 exSite "t2"
        (some "b")).1 =
       some ⟨exSite.name, exSite.url, "t2", getContentHash "a", getContentHash "b",
         getDiff "a" "b", "a", "b"⟩ ∧
     snapshotFileContent
       (checkSiteCore (checkSiteCore ⟨[], []⟩ exSite "t1" (some "a")).2 exSite "t2"
         (some "b")).2 exSite.name = some "b" ∧
     loadHistory
       (checkSiteCore (checkSiteCore ⟨[], []⟩ exSite "t1" (some "a")).2 exSite "t2"
         (some "b")).2 exSite.name =
       [HistEvent.initialSnapshot "t1" (getContentHash "a"),
        HistEvent.changeDetected "t2" (getContentHash "a") (getContentHash "b")
          (diffLineCount (getDiff "a" "b"))]) :=
  ⟨⟨rfl, rfl, by decide, by decide⟩,
    change_detection_two_checks ⟨[], []⟩ exSite "a" "b" "t1" "t2" rfl rfl
      (by decide) (by decide)⟩

/-- C1 counterexample: with the carriage-return text as first content, the
change record returned by the second check carries a translated old content,
not the first text itself, because load_snapshot rewrote CR to LF. -/
theorem change_detection_cr_cx :
    ((checkSiteCore (checkSiteCore ⟨[], []⟩ fullSite "t1" (some "a\r")).2
        fullSite "t2" (some "b")).1).map ChangeRecord.old_content = some "a\n" ∧
    ("a\n" : String) ≠ "a\r" :=
  ⟨by decide, by decide⟩

/-- C5 (amended): for a previously-unseen target whose extracted content is
the same carriage-return-free text at every check, the first check stores
the snapshot and the single initial_snapshot event, and every later check
leaves the state exactly as it was after the first check: no snapshot write,
no history event, for any number of further checks. -/
theorem steady_state_idempotence (st : MonitorState) (site : SiteConfig)
    (A t0 : String) (rest : List String)
    (hsnap : snapshotFileContent st site.name = none)
    (hhist : loadHistory st site.name = [])
    (hcr : crFree A = true) :
    iterateChecks site A (t0 :: rest) st = (checkSiteCore st site t0 (some A)).2 ∧
    loadHistory (iterateChecks site A (t0 :: rest) st) site.name =
      [HistEvent.initialSnapshot t0 (getContentHash A)] ∧
    snapshotFileContent (iterateChecks site A (t0 :: rest) st) site.name = some A := by
  have hload : loadSnapshot st site.name = none := by simp [loadSnapshot, hsnap]
  have e1 := checkSiteCore_fresh st site t0 A hload
  have hs1 : snapshotFileContent (checkSiteCore st site t0 (some A)).2 site.name = some A := by
    simp [e1, snapshotFileContent_saveHistory, snapshotFileContent_saveSnapshot_self]
  have hh1 : loadHistory (checkSiteCore st site t0 (some A)).2 site.name =
      [HistEvent.initialSnapshot t0 (getContentHash A)] := by
    simp [e1, loadHistory_saveHistory_self, hhist]
  have hl1 : loadSnapshot (checkSiteCore st site t0 (some A)).2 site.name = some A := by
    simp [loadSnapshot, hs1, univNewlines_of_crFree A hcr]
  have hiter : iterateChecks site A (t0 :: rest) st = (checkSiteCore st site t0 (some A)).2 := by
    show iterateChecks site A rest (checkSiteCore st site t0 (some A)).2 = _
    exact iterate_steady site A rest _ hl1
  exact ⟨hiter, by rw [hiter]; exact hh1, by rw [hiter]; exact hs1⟩

/-- C5 witness: three checks of the same one-letter text. -/
theorem steady_state_idempotence_witness :
    (snapshotFileContent ⟨[], []⟩ exSite.name = none ∧
     loadHistory ⟨[], []⟩ exSite.name = [] ∧ crFree "a" = true) ∧
    (iterateChecks exSite "a" ["t1", "t2", "t3"] ⟨[], []⟩ =
       (checkSiteCore ⟨[], []⟩ exSite "t1" (some "a")).2 ∧
     loadHistory (iterateChecks exSite "a" ["t1", "t2", "t3"] ⟨[], []⟩) exSite.name =
       [HistEvent.initialSnapshot "t1" (getContentHash "a")] ∧
     snapshotFileContent (iterateChecks exSite "a" ["t1", "t2", "t3"] ⟨[], []⟩)
       exSite.name = some "a") :=
  ⟨⟨rfl, rfl, by decide⟩,
    steady_state_idempotence ⟨[], []⟩ exSite "a" "t1" ["t2", "t3"] rfl rfl (by decide)⟩

set_option maxRecDepth 8000 in
/-- C5 counterexample: a carriage-return text as unchanged content makes the
second check record a spurious change_detected event, so the history holds
two events after two checks of identical content. -/
theorem steady_state_cr_cx :
    (loadHistory (iterateChecks fullSite "a\r" ["t1", "t2"] ⟨[], []⟩) "s").length = 2 := by
  decide


/-- Batch targets used by the C8 witness. -/
def batchS1 : SiteConfig := ⟨"one", "u1", "full", none, none, [], []⟩

def batchS2 : SiteConfig := ⟨"two", "u2", "full", none, none, [], []⟩

def batchS3 : SiteConfig := ⟨"three", "u3", "full", none, none, [], []⟩

/-- C8: in a batch over an ordered list of targets, an exception while
checking one target is caught by the bot, so the batch result equals
processing the targets before the failure and then the targets after it,
each producing its usual result, with the failing target contributing no
state change and no notification; since the other targets use different
storage keys, the failing target snapshot and history after the whole batch
are exactly what they were before the batch. -/
theorem batch_failure_isolation {Doc : Type} (ops : SoupOps Doc) (now : String)
    (st : MonitorState) (pre post : List (SiteConfig × FetchOutcome Doc))
    (bad : SiteConfig) (msg : String)
    (hdisj : ∀ p ∈ pre ++ post, safeFilename p.1.name ≠ safeFilename bad.name) :
    checkAllSites ops now st (pre ++ (bad, FetchOutcome.failure msg) :: post) =
      ((checkAllSites ops now (checkAllSites ops now st pre).1 post).1,
       (checkAllSites ops now st pre).2 ++
         (checkAllSites ops now (checkAllSites ops now st pre).1 post).2) ∧
    snapshotFileContent
      (checkAllSites ops now st (pre ++ (bad, FetchOutcome.failure msg) :: post)).1
      bad.name = snapshotFileContent st bad.name ∧
    loadHistory
      (checkAllSites ops now st (pre ++ (bad, FetchOutcome.failure msg) :: post)).1
      bad.name = loadHistory st bad.name := by
  have hstep : ∀ st1 : MonitorState,
      checkAllSites ops now st1 ((bad, FetchOutcome.failure msg) :: post) =
        checkAllSites ops now st1 post := by
    intro st1
    simp [checkAllSites, botCheckSite_failure]
  have hmain : checkAllSites ops now st (pre ++ (bad, FetchOutcome.failure msg) :: post) =
      ((checkAllSites ops now (checkAllSites ops now st pre).1 post).1,
       (checkAllSites ops now st pre).2 ++
         (checkAllSites ops now (checkAllSites ops now st pre).1 post).2) := by
    rw [checkAllSites_append, hstep]
  have hpre := checkAllSites_frame ops now pre st bad.name
    (fun p hp => Ne.symm (hdisj p (List.mem_append_left post hp)))
  have hpost := checkAllSites_frame ops now post (checkAllSites ops now st pre).1 bad.name
    (fun p hp => Ne.symm (hdisj p (List.mem_append_right pre hp)))
  refine ⟨hmain, ?_, ?_⟩
  · simp only [hmain]
    rw [show ((checkAllSites ops now (checkAllSites ops now st pre).1 post).1,
        (checkAllSites ops now st pre).2 ++
          (checkAllSites ops now (checkAllSites ops now st pre).1 post).2).1 =
      (checkAllSites ops now (checkAllSites ops now st pre).1 post).1 from rfl]
    rw [hpost.1, hpre.1]
  · simp only [hmain]
    rw [show ((checkAllSites ops now (checkAllSites ops now st pre).1 post).1,
        (checkAllSites ops now st pre).2 ++
          (checkAllSites ops now (checkAllSites ops now st pre).1 post).2).1 =
      (checkAllSites ops now (checkAllSites ops now st pre).1 post).1 from rfl]
    rw [hpost.2, hpre.2]

/-- C8 witness: a concrete batch of three targets whose middle fetch fails. -/
theorem batch_failure_isolation_witness :
    (∀ p ∈ ([(batchS1, FetchOutcome.success "c1" ())] ++
        [(batchS3, FetchOutcome.success "c3" ())]),
      safeFilename p.1.name ≠ safeFilename batchS2.name) ∧
    (checkAllSites unitOps "t" ⟨[], []⟩
        ([(batchS1, FetchOutcome.success "c1" ())] ++
          (batchS2, FetchOutcome.failure "boom") ::
            [(batchS3, FetchOutcome.success "c3" ())]) =
      ((checkAllSites unitOps "t" (checkAllSites unitOps "t" ⟨[], []⟩
          [(batchS1, FetchOutcome.success "c1" ())]).1
          [(batchS3, FetchOutcome.success "c3" ())]).1,
       (checkAllSites unitOps "t" ⟨[], []⟩ [(batchS1, FetchOutcome.success "c1" ())]).2 ++
         (checkAllSites unitOps "t" (checkAllSites unitOps "t" ⟨[], []⟩
           [(batchS1, FetchOutcome.success "c1" ())]).1
           [(batchS3, FetchOutcome.success "c3" ())]).2) ∧
     snapshotFileContent (checkAllSites unitOps "t" ⟨[], []⟩
        ([(batchS1, FetchOutcome.success "c1" ())] ++
          (batchS2, FetchOutcome.failure "boom") ::
            [(batchS3, FetchOutcome.success "c3" ())])).1
        batchS2.name = snapshotFileContent ⟨[], []⟩ batchS2.name ∧
     loadHistory (checkAllSites unitOps "t" ⟨[], []⟩
        ([(batchS1, FetchOutcome.success "c1" ())] ++
          (batchS2, FetchOutcome.failure "boom") ::
            [(batchS3, FetchOutcome.success "c3" ())])).1
        batchS2.name = loadHistory ⟨[], []⟩ batchS2.name) :=
  ⟨by decide,
    batch_failure_isolation unitOps "t" ⟨[], []⟩
      [(batchS1, FetchOutcome.success "c1" ())]
      [(batchS3, FetchOutcome.success "c3" ())]
      batchS2 "boom" (by decide)⟩

end SiteMonitor
